import Mathlib

/-!
Verification of the Prefect cloud `Client` (src/prefect/client.py).

The client is modelled as a state machine.  A `Py` value is a Python object as
decoded from JSON.  The `token` attribute of a client is modelled as
`Option Py`: `Option.none` means the attribute has been deleted
(`del self.token` in `logout`), while `some Py.none` means the attribute holds
Python `None`.  Network traffic is modelled by an environment `Env` that maps
the index of a network call (in program order) to the `HttpResponse` the
transport returns, and every operation threads the list of network events it
emitted, so that theorems can count dispatches and refresh calls.
-/

/-- A Python value as decoded from a JSON document (plus `None`). -/
inductive Py where
  | none
  | bool (b : Bool)
  | int (n : Int)
  | str (s : String)
  | list (xs : List Py)
  | dict (fields : List (String × Py))

/-- Python `v is None`. -/
def Py.isNone : Py → Bool
  | Py.none => true
  | _ => false

/-- Python truthiness of a decoded value. -/
def pyTruthy : Py → Bool
  | Py.none => false
  | Py.bool b => b
  | Py.int n => n != 0
  | Py.str s => s != ""
  | Py.list xs => !xs.isEmpty
  | Py.dict fs => !fs.isEmpty

mutual

/-- Python `repr` of a decoded value (escaping inside nested strings elided;
no claim evaluates it on a container). -/
def pyRepr : Py → String
  | Py.none => "None"
  | Py.bool true => "True"
  | Py.bool false => "False"
  | Py.int n => toString n
  | Py.str s => "\x27" ++ s ++ "\x27"
  | Py.list xs => "[" ++ pyReprList xs ++ "]"
  | Py.dict fs => "\x7b" ++ pyReprFields fs ++ "\x7d"

def pyReprList : List Py → String
  | [] => ""
  | [x] => pyRepr x
  | x :: y :: rest => pyRepr x ++ ", " ++ pyReprList (y :: rest)

def pyReprFields : List (String × Py) → String
  | [] => ""
  | [(k, v)] => "\x27" ++ k ++ "\x27: " ++ pyRepr v
  | (k, v) :: g :: rest => "\x27" ++ k ++ "\x27: " ++ pyRepr v ++ ", " ++ pyReprFields (g :: rest)

end

/-- Python `str` of a decoded value, as used by `"Bearer \x7b\x7d".format(self.token)`:
`str(None) = "None"`, strings pass through, containers fall back to `repr`. -/
def pyStr : Py → String
  | Py.str s => s
  | v => pyRepr v

/-- One hexadecimal digit, lower case, as produced by `json.dumps`. -/
def hexDigit (n : Nat) : Char :=
  if n < 10 then Char.ofNat (48 + n) else Char.ofNat (87 + n)

/-- Escaping of one character inside a JSON string literal, following
`json.dumps` defaults for the basic plane. -/
def jsonEscapeChar (c : Char) : String :=
  if c = '\\' then "\\\\"
  else if c = '\"' then "\\\""
  else if c.toNat < 32 then
    if c = Char.ofNat 10 then "\\n"
    else if c = Char.ofNat 9 then "\\t"
    else if c = Char.ofNat 13 then "\\r"
    else if c = Char.ofNat 8 then "\\b"
    else if c = Char.ofNat 12 then "\\f"
    else "\\u00" ++ String.singleton (hexDigit (c.toNat / 16)) ++
      String.singleton (hexDigit (c.toNat % 16))
  else if c.toNat > 126 ∧ c.toNat < 65536 then
    "\\u" ++ String.singleton (hexDigit (c.toNat / 4096 % 16)) ++
      String.singleton (hexDigit (c.toNat / 256 % 16)) ++
      String.singleton (hexDigit (c.toNat / 16 % 16)) ++
      String.singleton (hexDigit (c.toNat % 16))
  else String.singleton c

/-- Body of a JSON string literal as serialized by `json.dumps`. -/
def jsonEscape (s : String) : String := String.join (s.toList.map jsonEscapeChar)

mutual

/-- `json.dumps` with its default separators. -/
def jsonDumps : Py → String
  | Py.none => "null"
  | Py.bool true => "true"
  | Py.bool false => "false"
  | Py.int n => toString n
  | Py.str s => "\"" ++ jsonEscape s ++ "\""
  | Py.list xs => "[" ++ jsonDumpsList xs ++ "]"
  | Py.dict fs => "\x7b" ++ jsonDumpsFields fs ++ "\x7d"

def jsonDumpsList : List Py → String
  | [] => ""
  | [x] => jsonDumps x
  | x :: y :: rest => jsonDumps x ++ ", " ++ jsonDumpsList (y :: rest)

def jsonDumpsFields : List (String × Py) → String
  | [] => ""
  | [(k, v)] => "\"" ++ jsonEscape k ++ "\"" ++ ": " ++ jsonDumps v
  | (k, v) :: g :: rest =>
    "\"" ++ jsonEscape k ++ "\"" ++ ": " ++ jsonDumps v ++ ", " ++ jsonDumpsFields (g :: rest)

end

/-- Python `d.get(key)` on a decoded value: key lookup on a dict, returning
the value or `None`-as-absent; any non-dict raises `AttributeError`
(`.get` does not exist on lists, strings, numbers or `None`). -/
def pyGet (v : Py) (key : String) : Except Unit (Option Py) :=
  match v with
  | Py.dict fs => Except.ok ((fs.find? (fun f => f.1 == key)).map (fun f => f.2))
  | _ => Except.error ()

/-- Python `key in v` for the decoded-object case relevant here: membership of
`key` among the keys of a dict (a non-dict response body has no keys). -/
def pyHasKey (v : Py) (key : String) : Bool :=
  match v with
  | Py.dict fs => fs.any (fun f => f.1 == key)
  | _ => false

/-- Python `v[key]`, used only under a `pyHasKey` guard. -/
def pyItem (v : Py) (key : String) : Py :=
  match v with
  | Py.dict fs => ((fs.find? (fun f => f.1 == key)).map (fun f => f.2)).getD Py.none
  | _ => Py.none

/-- An HTTP response as the `requests` library presents it: status code, raw
text, and the value `.json()` decodes the text to. -/
structure HttpResponse where
  status : Nat
  text : String
  body : Py

/-- The exceptions the client can raise.  `valueError` carries the Python
argument of the `ValueError` (a message string, or the raw `errors` payload for
GraphQL failures); `httpError` is `requests.HTTPError`, carrying the response
`raise_for_status` rejected; `attributeError` arises from touching the deleted
`token` attribute or calling `.get` on a non-dict body; `typeError` from
writing a non-string token to the credential file. -/
inductive Err where
  | valueError (arg : Py)
  | httpError (resp : HttpResponse)
  | attributeError
  | typeError

/-- One observable network interaction: a dispatch of the protected request by
`request_fn` (with the parameters actually transmitted — DELETE carries none),
the POST issued by `refresh_token`, or the POST issued by `login`. -/
inductive NetEvent where
  | dispatched (method url authHeader : String) (params : List (String × Py))
  | refreshPosted (url authHeader : String)
  | loginPosted (url : String) (auth : String × String) (body : List (String × Py))

/-- The transport: the response returned to the n-th network call of the
operation under study. -/
structure Env where
  net : Nat → HttpResponse

/-- The client state: the two server URLs fixed at construction, the `token`
attribute (`Option.none` = attribute deleted by `logout`; `some Py.none` =
attribute holds Python `None`), and the contents of the local credential file
(`Option.none` = file absent). -/
structure Client where
  apiServer : String
  graphqlServer : String
  token : Option Py
  diskToken : Option String

/-- Python `s.lstrip("/")`. -/
def lstripSlash (s : String) : String := String.mk (s.toList.dropWhile (fun c => c = '/'))

/-- Python `s.rstrip("/")`. -/
def rstripSlash (s : String) : String :=
  String.mk ((s.toList.reverse.dropWhile (fun c => c = '/')).reverse)

/-- Python `os.path.join` for two components. -/
def osPathJoin (a b : String) : String :=
  if b.startsWith "/" then b
  else if a = "" then b
  else if a.endsWith "/" then a ++ b
  else a ++ "/" ++ b

/-- The message of the fail-fast `ValueError` raised when no token is set. -/
def unauthMsg : String := "Call Client.login() to set the client token."

/-- The nested `request_fn` of `Client._request`: read `self.token`, build the
bearer header, dispatch per method (GET with query params, POST with a JSON
body, DELETE with neither, anything else `ValueError`), then
`raise_for_status` (an `HTTPError` exactly for 4xx/5xx). -/
def Client.request_fn (c : Client) (env : Env) (evs : List NetEvent)
    (method url : String) (params : List (String × Py)) :
    Except Err HttpResponse × Client × List NetEvent :=
  match c.token with
  | Option.none => (Except.error Err.attributeError, c, evs)
  | some tok =>
    let headers := "Bearer " ++ pyStr tok
    if method == "GET" || method == "POST" || method == "DELETE" then
      let resp := env.net evs.length
      let sent := if method == "DELETE" then [] else params
      let evs2 := evs ++ [NetEvent.dispatched method url headers sent]
      if 400 ≤ resp.status ∧ resp.status < 600 then
        (Except.error (Err.httpError resp), c, evs2)
      else
        (Except.ok resp, c, evs2)
    else
      (Except.error (Err.valueError (Py.str ("Invalid method: " ++ method))), c, evs)

/-- `Client.refresh_token`: POST to `<apiServer>/refresh_token` with the
current token as bearer auth (no status check), then
`self.token = response.json().get("token")`. -/
def Client.refresh_token (c : Client) (env : Env) (evs : List NetEvent) :
    Except Err Unit × Client × List NetEvent :=
  match c.token with
  | Option.none => (Except.error Err.attributeError, c, evs)
  | some tok =>
    let url := osPathJoin c.apiServer "refresh_token"
    let resp := env.net evs.length
    let evs2 := evs ++ [NetEvent.refreshPosted url ("Bearer " ++ pyStr tok)]
    match pyGet resp.body "token" with
    | Except.error _ => (Except.error Err.attributeError, c, evs2)
    | Except.ok v => (Except.ok (), { c with token := some (v.getD Py.none) }, evs2)

/-- `Client._request`: resolve the server, fail fast when `self.token is None`
(touching the attribute at all raises `AttributeError` after `logout`), build
the canonical URL, run `request_fn`; an `HTTPError` with status 401 triggers
`refresh_token` followed by exactly one more `request_fn`, whose outcome —
success or failure — is returned as is; any other error propagates. -/
def Client._request (c : Client) (env : Env) (evs : List NetEvent)
    (method path : String) (params : List (String × Py)) (server : Option String) :
    Except Err HttpResponse × Client × List NetEvent :=
  let server := server.getD c.apiServer
  match c.token with
  | Option.none => (Except.error Err.attributeError, c, evs)
  | some tok =>
    if tok.isNone then
      (Except.error (Err.valueError (Py.str unauthMsg)), c, evs)
    else
      let url := rstripSlash (osPathJoin server (lstripSlash path))
      match c.request_fn env evs method url params with
      | (Except.ok r, c1, evs1) => (Except.ok r, c1, evs1)
      | (Except.error (Err.httpError resp), c1, evs1) =>
        if resp.status == 401 then
          match c1.refresh_token env evs1 with
          | (Except.ok _, c2, evs2) => c2.request_fn env evs2 method url params
          | (Except.error e, c2, evs2) => (Except.error e, c2, evs2)
        else
          (Except.error (Err.httpError resp), c1, evs1)
      | (Except.error e, c1, evs1) => (Except.error e, c1, evs1)

/-- `Client.post`: a POST through `_request`; an empty response text yields
`\x7b\x7d` rather than a decode of the body. -/
def Client.post (c : Client) (env : Env) (evs : List NetEvent)
    (path : String) (server : Option String) (params : List (String × Py)) :
    Except Err Py × Client × List NetEvent :=
  match c._request env evs "POST" path params server with
  | (Except.ok resp, c1, evs1) =>
    if resp.text == "" then (Except.ok (Py.dict []), c1, evs1)
    else (Except.ok resp.body, c1, evs1)
  | (Except.error e, c1, evs1) => (Except.error e, c1, evs1)

/-- The params dict `Client.graphql` hands to `post`: the query text, and the
variables dict serialized as a single JSON string by `json.dumps`. -/
def graphqlParams (query : String) (vars : List (String × Py)) : List (String × Py) :=
  [("query", Py.str query), ("variables", Py.str (jsonDumps (Py.dict vars)))]

/-- Modelled from the spec: `as_nested_dict(result, GraphQLResult).data`
(from `prefect.utilities.graphql`, which is outside this source tree).  The
Result Wrapper converts mappings to attribute-accessible nodes and round-trips
the structure unchanged, so `.data` reads the `data` key of the decoded body;
a missing attribute raises `AttributeError`. -/
def graphqlData (result : Py) : Except Err Py :=
  match pyGet result "data" with
  | Except.ok (some v) => Except.ok v
  | _ => Except.error Err.attributeError

/-- `Client.graphql`: POST the query and the JSON-serialized variables to the
GraphQL server through `post`; a decoded body carrying an `errors` key raises
`ValueError` with that value, and only otherwise is the `data` payload
returned (wrapped). -/
def Client.graphql (c : Client) (env : Env) (evs : List NetEvent)
    (query : String) (vars : List (String × Py)) :
    Except Err Py × Client × List NetEvent :=
  match c.post env evs "" (some c.graphqlServer) (graphqlParams query vars) with
  | (Except.ok result, c1, evs1) =>
    if pyHasKey result "errors" then
      (Except.error (Err.valueError (pyItem result "errors")), c1, evs1)
    else
      match graphqlData result with
      | Except.ok d => (Except.ok d, c1, evs1)
      | Except.error e => (Except.error e, c1, evs1)
  | (Except.error e, c1, evs1) => (Except.error e, c1, evs1)

/-- `Client.login`: POST basic-auth credentials and the account body to
`<apiServer>/login`; a non-ok status (≥ 400) raises `ValueError`; otherwise
`self.token = response.json().get("token")` unconditionally, and only a truthy
token is additionally written to the credential file. -/
def Client.login (c : Client) (env : Env) (evs : List NetEvent)
    (email password : String) (accountSlug accountId : Py) :
    Except Err Unit × Client × List NetEvent :=
  let url := osPathJoin c.apiServer "login"
  let resp := env.net evs.length
  let evs2 := evs ++
    [NetEvent.loginPosted url (email, password)
      [("account_id", accountId), ("account_slug", accountSlug)]]
  if resp.status < 400 then
    match pyGet resp.body "token" with
    | Except.error _ => (Except.error Err.attributeError, c, evs2)
    | Except.ok v =>
      let tok := v.getD Py.none
      let c1 := { c with token := some tok }
      if pyTruthy tok then
        match tok with
        | Py.str s => (Except.ok (), { c1 with diskToken := some s }, evs2)
        | _ => (Except.error Err.typeError, c1, evs2)
      else
        (Except.ok (), c1, evs2)
  else
    (Except.error (Err.valueError (Py.str "Could not log in.")), c, evs2)

/-- `Client.logout`: delete the credential file if present (a no-op when
absent), then `del self.token` — which raises `AttributeError` when the
attribute was already deleted by a previous logout. -/
def Client.logout (c : Client) : Except Err Unit × Client :=
  let c1 := { c with diskToken := Option.none }
  match c1.token with
  | Option.none => (Except.error Err.attributeError, c1)
  | some _ => (Except.ok (), { c1 with token := Option.none })

/-- Recognizer for protected-request dispatches in a trace. -/
def isDispatch : NetEvent → Bool
  | NetEvent.dispatched _ _ _ _ => true
  | _ => false

/-- Recognizer for refresh calls in a trace. -/
def isRefreshCall : NetEvent → Bool
  | NetEvent.refreshPosted _ _ => true
  | _ => false

/-- A successful response with a nonempty body, used where a claim does not
constrain the transport. -/
def okResponse : HttpResponse :=
  { status := 200, text := "x", body := Py.dict [("data", Py.dict [])] }

/-- An environment answering every call with `okResponse`. -/
def okEnv : Env := { net := fun _ => okResponse }

/-- A concrete logged-in client used by witnesses and counterexamples. -/
def clientA : Client :=
  { apiServer := "https://api.prefect.io"
    graphqlServer := "https://api.prefect.io"
    token := some (Py.str "old-token")
    diskToken := some "old-token" }

/-- An environment whose responses are successful but whose decoded bodies
lack a `token` field. -/
def envNoTokenBody : Env :=
  { net := fun _ => { status := 200, text := "x", body := Py.dict [("ok", Py.bool true)] } }

/-- C5: a request issued while the stored token is `None` fails immediately
with the `Unauthenticated` `ValueError` and performs zero network calls. -/
theorem C5_no_token_fails_fast (c : Client) (env : Env) (method path : String)
    (params : List (String × Py)) (server : Option String)
    (h : c.token = some Py.none) :
    c._request env [] method path params server
      = (Except.error (Err.valueError (Py.str unauthMsg)), c, []) := by
  simp [Client._request, h, Py.isNone]

/-- Witness for C5 at a concrete client and transport. -/
theorem C5_witness :
    ({ clientA with token := some Py.none } : Client)._request okEnv [] "GET" "flows" [] Option.none
      = (Except.error (Err.valueError (Py.str unauthMsg)),
         { clientA with token := some Py.none }, []) :=
  C5_no_token_fails_fast _ _ _ _ _ _ rfl

/-- C3 counterexample: a second `logout` on an already logged-out client does
fail — `del self.token` raises `AttributeError` because the attribute was
already deleted by the first `logout`. -/
theorem C3_counterexample :
    (((clientA.logout).2).logout).1 = Except.error Err.attributeError := rfl

/-- C3 as amended: a second `logout` raises `AttributeError` (it is not
idempotent in its success), while the state is left in the same logged-out
configuration: token attribute deleted, credential file absent. -/
theorem C3_amended_second_logout (c : Client) :
    ((c.logout).2).logout = (Except.error Err.attributeError, (c.logout).2) := by
  cases htok : c.token <;> simp [Client.logout, htok]

/-- C4 counterexample: after `logout`, a request fails by `AttributeError`
(the deleted `token` attribute is touched by the `is None` check), not by the
`Unauthenticated` `ValueError` the claim names. -/
theorem C4_counterexample :
    (((clientA.logout).2)._request okEnv [] "GET" "flows" [] Option.none).1
        = Except.error Err.attributeError
      ∧ (((clientA.logout).2)._request okEnv [] "GET" "flows" [] Option.none).1
        ≠ Except.error (Err.valueError (Py.str unauthMsg)) := by
  refine ⟨rfl, ?_⟩
  show (Except.error Err.attributeError : Except Err HttpResponse) ≠ _
  simp

/-- C4 as amended: after `logout` every subsequent request fails fast — with
`AttributeError`, since the token attribute was deleted rather than set to
`None` — and performs zero network calls, leaving the state unchanged. -/
theorem C4_amended_logout_then_request (c : Client) (env : Env) (method path : String)
    (params : List (String × Py)) (server : Option String) :
    ((c.logout).2)._request env [] method path params server
      = (Except.error Err.attributeError, (c.logout).2, []) := by
  cases htok : c.token <;> simp [Client.logout, Client._request, htok]

/-- C2 counterexample: a successful login whose response body lacks a `token`
field does change the stored in-memory token — it overwrites it with `None`. -/
theorem C2_counterexample :
    ((clientA.login envNoTokenBody [] "a@b.c" "pw" Py.none Py.none).2).1.token
      ≠ clientA.token := by
  show some Py.none ≠ some (Py.str "old-token")
  simp

/-- C2 as amended: a successful login whose body lacks a `token` field
succeeds silently, but overwrites the in-memory token with `None`
(`self.token = response.json().get("token")` is unconditional); only the
on-disk token is left unchanged, since a falsy token is never written. -/
theorem C2_amended_login_overwrites (c : Client) (env : Env)
    (email password : String) (accountSlug accountId : Py)
    (hok : (env.net 0).status < 400)
    (hno : pyGet (env.net 0).body "token" = Except.ok Option.none) :
    (c.login env [] email password accountSlug accountId).1 = Except.ok ()
      ∧ ((c.login env [] email password accountSlug accountId).2).1.token = some Py.none
      ∧ ((c.login env [] email password accountSlug accountId).2).1.diskToken = c.diskToken := by
  simp [Client.login, hok, hno, pyTruthy]

/-- Witness for the amended C2 at a concrete client and transport. -/
theorem C2_amended_witness :
    (clientA.login envNoTokenBody [] "a@b.c" "pw" Py.none Py.none).1 = Except.ok ()
      ∧ ((clientA.login envNoTokenBody [] "a@b.c" "pw" Py.none Py.none).2).1.token
          = some Py.none
      ∧ ((clientA.login envNoTokenBody [] "a@b.c" "pw" Py.none Py.none).2).1.diskToken
          = clientA.diskToken :=
  C2_amended_login_overwrites clientA envNoTokenBody "a@b.c" "pw" Py.none Py.none
    (by decide) rfl

/-- C8: `refresh_token` replaces the stored token with exactly what the
response body provides — the value under `token`, or `None` when the body
provides none — never retaining the previous token. -/
theorem C8_refresh_overwrites (c : Client) (env : Env) (tok : Py) (v : Option Py)
    (htok : c.token = some tok)
    (hget : pyGet (env.net 0).body "token" = Except.ok v) :
    (c.refresh_token env []).1 = Except.ok ()
      ∧ ((c.refresh_token env []).2).1.token = some (v.getD Py.none) := by
  simp [Client.refresh_token, htok, hget]

/-- Witness for C8: a refresh whose response body has no `token` field
overwrites a present token with `None`. -/
theorem C8_witness :
    (clientA.refresh_token envNoTokenBody []).1 = Except.ok ()
      ∧ ((clientA.refresh_token envNoTokenBody []).2).1.token
          = some (Option.none.getD Py.none) :=
  C8_refresh_overwrites clientA envNoTokenBody (Py.str "old-token") Option.none rfl rfl

/-- C10: a first dispatch failing with a non-401 HTTP error status is
re-raised as is: no refresh call, exactly one dispatch, and the client state
(in particular the stored token) is unchanged. -/
theorem C10_non401_propagates (c : Client) (env : Env) (method path : String)
    (params : List (String × Py)) (server : Option String) (tok : Py)
    (htok : c.token = some tok) (hnn : tok.isNone = false)
    (hm : (method == "GET" || method == "POST" || method == "DELETE") = true)
    (h400 : 400 ≤ (env.net 0).status) (h600 : (env.net 0).status < 600)
    (hne : (env.net 0).status ≠ 401) :
    c._request env [] method path params server
      = (Except.error (Err.httpError (env.net 0)), c,
         [NetEvent.dispatched method
            (rstripSlash (osPathJoin (server.getD c.apiServer) (lstripSlash path)))
            ("Bearer " ++ pyStr tok)
            (if method == "DELETE" then [] else params)]) := by
  simp [Client._request, Client.request_fn, htok, hnn, hm, h400, h600, hne]

/-- A transport for the C10 witness: every call fails with status 500. -/
def env500 : Env :=
  { net := fun _ => { status := 500, text := "boom", body := Py.dict [] } }

/-- Witness for C10 at a concrete client and transport. -/
theorem C10_witness :
    clientA._request env500 [] "GET" "flows" [] Option.none
      = (Except.error (Err.httpError (env500.net 0)), clientA,
         [NetEvent.dispatched "GET"
            (rstripSlash (osPathJoin ((Option.none : Option String).getD clientA.apiServer)
              (lstripSlash "flows")))
            ("Bearer " ++ pyStr (Py.str "old-token"))
            (if ("GET" : String) == "DELETE" then [] else [])]) :=
  C10_non401_propagates clientA env500 "GET" "flows" [] Option.none (Py.str "old-token")
    rfl rfl rfl (by decide) (by decide) (by decide)

/-- C1: a first dispatch answered with status 401 triggers exactly one
refresh call and exactly one resend of the rebuilt request (same method, URL
and parameters, new bearer token); the outcome of that single retry — success,
a second 401, or any other HTTP error — is returned unmodified, with no
further refreshes or retries: the trace holds exactly 2 dispatches of the
protected request and 1 refresh call. -/
theorem C1_single_refresh_and_retry (c : Client) (env : Env) (method path : String)
    (params : List (String × Py)) (server : Option String) (tok : Py) (v : Option Py)
    (htok : c.token = some tok) (hnn : tok.isNone = false)
    (hm : (method == "GET" || method == "POST" || method == "DELETE") = true)
    (h401 : (env.net 0).status = 401)
    (hget : pyGet (env.net 1).body "token" = Except.ok v) :
    c._request env [] method path params server
      = ((if 400 ≤ (env.net 2).status ∧ (env.net 2).status < 600 then
            Except.error (Err.httpError (env.net 2))
          else Except.ok (env.net 2)),
         { c with token := some (v.getD Py.none) },
         [NetEvent.dispatched method
            (rstripSlash (osPathJoin (server.getD c.apiServer) (lstripSlash path)))
            ("Bearer " ++ pyStr tok)
            (if method == "DELETE" then [] else params),
          NetEvent.refreshPosted (osPathJoin c.apiServer "refresh_token")
            ("Bearer " ++ pyStr tok),
          NetEvent.dispatched method
            (rstripSlash (osPathJoin (server.getD c.apiServer) (lstripSlash path)))
            ("Bearer " ++ pyStr (v.getD Py.none))
            (if method == "DELETE" then [] else params)])
      ∧ List.countP isDispatch (c._request env [] method path params server).2.2 = 2
      ∧ List.countP isRefreshCall (c._request env [] method path params server).2.2 = 1 := by
  have key : c._request env [] method path params server
      = ((if 400 ≤ (env.net 2).status ∧ (env.net 2).status < 600 then
            Except.error (Err.httpError (env.net 2))
          else Except.ok (env.net 2)),
         { c with token := some (v.getD Py.none) },
         [NetEvent.dispatched method
            (rstripSlash (osPathJoin (server.getD c.apiServer) (lstripSlash path)))
            ("Bearer " ++ pyStr tok)
            (if method == "DELETE" then [] else params),
          NetEvent.refreshPosted (osPathJoin c.apiServer "refresh_token")
            ("Bearer " ++ pyStr tok),
          NetEvent.dispatched method
            (rstripSlash (osPathJoin (server.getD c.apiServer) (lstripSlash path)))
            ("Bearer " ++ pyStr (v.getD Py.none))
            (if method == "DELETE" then [] else params)]) := by
    by_cases hrs : 400 ≤ (env.net 2).status ∧ (env.net 2).status < 600 <;>
      simp [Client._request, Client.request_fn, Client.refresh_token,
        htok, hnn, hm, h401, hget, hrs]
  refine ⟨key, ?_, ?_⟩ <;> rw [key] <;> rfl

/-- A transport for the C1 witness: the first dispatch is answered 401, the
refresh call returns a fresh token, and the retried dispatch is answered 401
again — exercising the propagate-the-second-failure path. -/
def env401 : Env :=
  { net := fun i =>
      if i = 0 then { status := 401, text := "x", body := Py.dict [] }
      else if i = 1 then
        { status := 200, text := "x", body := Py.dict [("token", Py.str "new-token")] }
      else { status := 401, text := "x", body := Py.dict [] } }

/-- Witness for C1 at a concrete client and transport. -/
theorem C1_witness :
    clientA._request env401 [] "GET" "flows" [] Option.none
      = ((if 400 ≤ (env401.net 2).status ∧ (env401.net 2).status < 600 then
            Except.error (Err.httpError (env401.net 2))
          else Except.ok (env401.net 2)),
         { clientA with token := some ((some (Py.str "new-token")).getD Py.none) },
         [NetEvent.dispatched "GET"
            (rstripSlash (osPathJoin ((Option.none : Option String).getD clientA.apiServer)
              (lstripSlash "flows")))
            ("Bearer " ++ pyStr (Py.str "old-token"))
            (if ("GET" : String) == "DELETE" then [] else []),
          NetEvent.refreshPosted (osPathJoin clientA.apiServer "refresh_token")
            ("Bearer " ++ pyStr (Py.str "old-token")),
          NetEvent.dispatched "GET"
            (rstripSlash (osPathJoin ((Option.none : Option String).getD clientA.apiServer)
              (lstripSlash "flows")))
            ("Bearer " ++ pyStr ((some (Py.str "new-token")).getD Py.none))
            (if ("GET" : String) == "DELETE" then [] else [])])
      ∧ List.countP isDispatch (clientA._request env401 [] "GET" "flows" [] Option.none).2.2 = 2
      ∧ List.countP isRefreshCall (clientA._request env401 [] "GET" "flows" [] Option.none).2.2 = 1 :=
  C1_single_refresh_and_retry clientA env401 "GET" "flows" [] Option.none
    (Py.str "old-token") (some (Py.str "new-token")) rfl rfl rfl rfl rfl

/-- C9: when the first dispatch is answered 401 and the refresh response
yields no usable token, the stored token becomes `None`, yet the retry is
still dispatched over the network — carrying the header
`Authorization: Bearer None` — because the token-presence check runs only once,
before the first attempt; the retry never fails fast with `Unauthenticated`. -/
theorem C9_retry_runs_with_bearer_none (c : Client) (env : Env) (method path : String)
    (params : List (String × Py)) (server : Option String) (tok : Py) (v : Option Py)
    (htok : c.token = some tok) (hnn : tok.isNone = false)
    (hm : (method == "GET" || method == "POST" || method == "DELETE") = true)
    (h401 : (env.net 0).status = 401)
    (hget : pyGet (env.net 1).body "token" = Except.ok v)
    (hmiss : v.getD Py.none = Py.none) :
    (c._request env [] method path params server).2.2
      = [NetEvent.dispatched method
           (rstripSlash (osPathJoin (server.getD c.apiServer) (lstripSlash path)))
           ("Bearer " ++ pyStr tok)
           (if method == "DELETE" then [] else params),
         NetEvent.refreshPosted (osPathJoin c.apiServer "refresh_token")
           ("Bearer " ++ pyStr tok),
         NetEvent.dispatched method
           (rstripSlash (osPathJoin (server.getD c.apiServer) (lstripSlash path)))
           "Bearer None"
           (if method == "DELETE" then [] else params)]
      ∧ ((c._request env [] method path params server).2).1.token = some Py.none
      ∧ (c._request env [] method path params server).1
          ≠ Except.error (Err.valueError (Py.str unauthMsg)) := by
  have key : c._request env [] method path params server
      = ((if 400 ≤ (env.net 2).status ∧ (env.net 2).status < 600 then
            Except.error (Err.httpError (env.net 2))
          else Except.ok (env.net 2)),
         { c with token := some Py.none },
         [NetEvent.dispatched method
            (rstripSlash (osPathJoin (server.getD c.apiServer) (lstripSlash path)))
            ("Bearer " ++ pyStr tok)
            (if method == "DELETE" then [] else params),
          NetEvent.refreshPosted (osPathJoin c.apiServer "refresh_token")
            ("Bearer " ++ pyStr tok),
          NetEvent.dispatched method
            (rstripSlash (osPathJoin (server.getD c.apiServer) (lstripSlash path)))
            "Bearer None"
            (if method == "DELETE" then [] else params)]) := by
    by_cases hrs : 400 ≤ (env.net 2).status ∧ (env.net 2).status < 600 <;>
      simp [Client._request, Client.request_fn, Client.refresh_token,
        htok, hnn, hm, h401, hget, hmiss, hrs, pyStr, pyRepr]
  refine ⟨by rw [key], by rw [key], ?_⟩
  rw [key]
  by_cases hrs : 400 ≤ (env.net 2).status ∧ (env.net 2).status < 600 <;> simp [hrs]

/-- A transport for the C9 witness: 401 on the first dispatch, then a refresh
response whose body has no `token` field, then success. -/
def env401NoTok : Env :=
  { net := fun i =>
      if i = 0 then { status := 401, text := "x", body := Py.dict [] }
      else if i = 1 then { status := 200, text := "x", body := Py.dict [] }
      else { status := 200, text := "x", body := Py.dict [("data", Py.dict [])] } }

/-- Witness for C9 at a concrete client and transport. -/
theorem C9_witness :
    (clientA._request env401NoTok [] "GET" "flows" [] Option.none).2.2
      = [NetEvent.dispatched "GET"
           (rstripSlash (osPathJoin ((Option.none : Option String).getD clientA.apiServer)
             (lstripSlash "flows")))
           ("Bearer " ++ pyStr (Py.str "old-token"))
           (if ("GET" : String) == "DELETE" then [] else []),
         NetEvent.refreshPosted (osPathJoin clientA.apiServer "refresh_token")
           ("Bearer " ++ pyStr (Py.str "old-token")),
         NetEvent.dispatched "GET"
           (rstripSlash (osPathJoin ((Option.none : Option String).getD clientA.apiServer)
             (lstripSlash "flows")))
           "Bearer None"
           (if ("GET" : String) == "DELETE" then [] else [])]
      ∧ ((clientA._request env401NoTok [] "GET" "flows" [] Option.none).2).1.token
          = some Py.none
      ∧ (clientA._request env401NoTok [] "GET" "flows" [] Option.none).1
          ≠ Except.error (Err.valueError (Py.str unauthMsg)) :=
  C9_retry_runs_with_bearer_none clientA env401NoTok "GET" "flows" [] Option.none
    (Py.str "old-token") Option.none rfl rfl rfl rfl rfl rfl

/-- C6: a decoded GraphQL response body that carries an `errors` key makes the
call fail with the GraphQL `ValueError` carrying exactly that key's value —
even when a `data` key is present in the same body, which is then never
returned. -/
theorem C6_errors_take_priority (c : Client) (env : Env) (query : String)
    (vars : List (String × Py)) (tok : Py)
    (htok : c.token = some tok) (hnn : tok.isNone = false)
    (hok : (env.net 0).status < 400)
    (htext : ((env.net 0).text == "") = false)
    (herr : pyHasKey (env.net 0).body "errors" = true) :
    (c.graphql env [] query vars).1
      = Except.error (Err.valueError (pyItem (env.net 0).body "errors")) := by
  have hrs : ¬(400 ≤ (env.net 0).status ∧ (env.net 0).status < 600) := by omega
  simp [Client.graphql, Client.post, Client._request, Client.request_fn,
    htok, hnn, htext, herr, hrs]

/-- A transport whose response body carries both a `data` and an `errors` key,
for the C6 witness. -/
def envGqlErrors : Env :=
  { net := fun _ =>
      { status := 200, text := "x",
        body := Py.dict [("data", Py.dict [("flow", Py.str "f1")]),
                         ("errors", Py.list [Py.str "boom"])] } }

/-- Witness for C6 at a concrete client, query and transport. -/
theorem C6_witness :
    (clientA.graphql envGqlErrors [] "query Q" []).1
      = Except.error (Err.valueError (pyItem (envGqlErrors.net 0).body "errors")) :=
  C6_errors_take_priority clientA envGqlErrors "query Q" [] (Py.str "old-token")
    rfl rfl (by decide) rfl rfl

/-- The trace of `graphql` is the trace of the `post` it delegates to: the
GraphQL result handling performs no network activity of its own. -/
theorem graphql_trace (c : Client) (env : Env) (evs : List NetEvent) (q : String)
    (vs : List (String × Py)) :
    (c.graphql env evs q vs).2.2
      = (c.post env evs "" (some c.graphqlServer) (graphqlParams q vs)).2.2 := by
  unfold Client.graphql
  rcases hp : c.post env evs "" (some c.graphqlServer) (graphqlParams q vs) with ⟨res, c1, evs1⟩
  rcases res with e | r
  · rfl
  · by_cases he : pyHasKey r "errors"
    · simp [he]
    · rcases hd : graphqlData r with e2 | d <;> simp [he, hd]

/-- The trace of `post` is the trace of the underlying `_request`: body
decoding performs no network activity. -/
theorem post_trace (c : Client) (env : Env) (evs : List NetEvent) (path : String)
    (server : Option String) (params : List (String × Py)) :
    (c.post env evs path server params).2.2
      = (c._request env evs "POST" path params server).2.2 := by
  unfold Client.post
  rcases hr : c._request env evs "POST" path params server with ⟨res, c1, evs1⟩
  rcases res with e | r
  · rfl
  · by_cases ht : r.text == "" <;> simp [ht]

/-- `json.dumps` joins independently serialized fragments with its item
separator. -/
def joinComma : List String → String
  | [] => ""
  | [x] => x
  | x :: y :: rest => x ++ ", " ++ joinComma (y :: rest)

/-- The dict case of the serializer is the comma-join of the independent
serializations of each key (as a JSON string) and each value. -/
theorem jsonDumpsFields_join (fs : List (String × Py)) :
    jsonDumpsFields fs
      = joinComma (fs.map (fun kv => jsonDumps (Py.str kv.1) ++ ": " ++ jsonDumps kv.2)) := by
  induction fs with
  | nil => rfl
  | cons f rest ih =>
    obtain ⟨k, v⟩ := f
    cases rest with
    | nil => rfl
    | cons g rest2 =>
      simp only [List.map, jsonDumpsFields, joinComma, jsonDumps] at ih ⊢
      rw [ih]

/-- C7: the GraphQL request body is a structured params map whose `variables`
entry is itself a single JSON string — the `json.dumps` serialization of the
variables dict, in which every key and every value is independently
serialized — and exactly this map is what goes over the wire. -/
theorem C7_variables_single_json_string (c : Client) (env : Env) (query : String)
    (vars : List (String × Py)) (tok : Py)
    (htok : c.token = some tok) (hnn : tok.isNone = false)
    (hok : (env.net 0).status < 400) :
    (c.graphql env [] query vars).2.2
      = [NetEvent.dispatched "POST"
           (rstripSlash (osPathJoin c.graphqlServer (lstripSlash "")))
           ("Bearer " ++ pyStr tok) (graphqlParams query vars)]
      ∧ List.lookup "variables" (graphqlParams query vars)
          = some (Py.str (jsonDumps (Py.dict vars)))
      ∧ jsonDumps (Py.dict vars)
          = "\x7b" ++ joinComma (vars.map
              (fun kv => jsonDumps (Py.str kv.1) ++ ": " ++ jsonDumps kv.2)) ++ "\x7d" := by
  refine ⟨?_, rfl, ?_⟩
  · rw [graphql_trace, post_trace]
    have hrs : ¬(400 ≤ (env.net 0).status ∧ (env.net 0).status < 600) := by omega
    simp [Client._request, Client.request_fn, htok, hnn, hrs]
  · simp only [jsonDumps]
    rw [jsonDumpsFields_join]
    simp [jsonDumps]

/-- Witness for C7 at a concrete client, query, variables and transport. -/
theorem C7_witness :
    (clientA.graphql okEnv [] "query Q" [("name", Py.str "s1")]).2.2
      = [NetEvent.dispatched "POST"
           (rstripSlash (osPathJoin clientA.graphqlServer (lstripSlash "")))
           ("Bearer " ++ pyStr (Py.str "old-token"))
           (graphqlParams "query Q" [("name", Py.str "s1")])]
      ∧ List.lookup "variables" (graphqlParams "query Q" [("name", Py.str "s1")])
          = some (Py.str (jsonDumps (Py.dict [("name", Py.str "s1")])))
      ∧ jsonDumps (Py.dict [("name", Py.str "s1")])
          = "\x7b" ++ joinComma ([("name", Py.str "s1")].map
              (fun kv => jsonDumps (Py.str kv.1) ++ ": " ++ jsonDumps kv.2)) ++ "\x7d" :=
  C7_variables_single_json_string clientA okEnv "query Q" [("name", Py.str "s1")]
    (Py.str "old-token") rfl rfl (by decide)
